import Mathlib

/-!
Verification of the export session controller of `giraffez`
(`src/giraffez/src/exportobject.cc`) against its natural-language
specification.

The encoding-merge logic (`Export_set_encoding`) is embedded over `Nat`
with explicit 32-bit complements.  The pieces of the program that live
outside the provided source file — the encoder (`encoder_set_encoding`,
`encoder_set_null`, `encoder_set_delimiter`), the category mask constants
and the `Giraffez::Connection` methods — are modelled from the spec and
marked as such in their doc comments.
-/

namespace Giraffez

/-- All 32 bits set: the value of a 32-bit `~0`. -/
def U32MAX : Nat := 2 ^ 32 - 1

/-- 32-bit bitwise complement, as applied by `~MASK` on a `uint32_t`
operand in `Export_set_encoding`. -/
def compl32 (m : Nat) : Nat := U32MAX ^^^ m

/-- Shallow embedding of the `new_settings` computation of
`Export_set_encoding` (exportobject.cc lines 117-130): `new_settings`
starts at 0 and each of the three category tests, when the requested mask
`s` has a bit in the category, recomputes it from the *stored* settings
`cur`, clearing that category's bits and OR-ing in the whole requested
mask.  The three tests are sequential and not chained: a later test that
fires discards the value computed by an earlier one. -/
def merge_settings (rowMask dtMask decMask cur s : Nat) : Nat :=
  let new0 : Nat := 0
  let new1 := if s &&& rowMask ≠ 0 then (cur &&& compl32 rowMask) ||| s else new0
  let new2 := if s &&& dtMask ≠ 0 then (cur &&& compl32 dtMask) ||| s else new1
  if s &&& decMask ≠ 0 then (cur &&& compl32 decMask) ||| s else new2

/-- Modelled from the spec: `encoder_set_encoding` is not under src/.
Per §4.3 the merged result must pass a validity check (the combination of
category values must correspond to a supported encoding); on success the
encoder stores the submitted value, on failure (the C function returning
nonzero) the stored settings are left unchanged.  The validity check is
kept abstract as a boolean predicate `valid`. -/
def encoder_set_encoding (valid : Nat → Bool) (v : Nat) : Option Nat :=
  if valid v then some v else none

/-- Outcome of `Export_set_encoding`: success, or a raised `ValueError`
whose message is formatted with the requested mask
(exportobject.cc line 132). -/
inductive SetEncOutcome where
  | ok
  | err (reported : Nat)
deriving DecidableEq, Repr

/-- Shallow embedding of `Export_set_encoding` (exportobject.cc lines
116-136), after successful argument parsing: compute `new_settings`,
submit it to the encoder, and either commit the encoder's new stored
settings or raise carrying the requested mask, leaving the stored
settings `cur` unchanged.  Returns the stored settings after the call
together with the outcome. -/
def Export_set_encoding (valid : Nat → Bool) (rowMask dtMask decMask cur s : Nat) :
    Nat × SetEncOutcome :=
  match encoder_set_encoding valid (merge_settings rowMask dtMask decMask cur s) with
  | some v => (v, SetEncOutcome.ok)
  | none => (cur, SetEncOutcome.err s)

/-! Bit-level helper lemmas. -/

theorem testBit_U32MAX (i : Nat) : U32MAX.testBit i = decide (i < 32) :=
  Nat.testBit_two_pow_sub_one 32 i

theorem testBit_land_compl32 (m : Nat) {x : Nat} (hx : x < 2 ^ 32) (i : Nat) :
    (x &&& compl32 m).testBit i = (x.testBit i && !(m.testBit i)) := by
  rcases Nat.lt_or_ge i 32 with h | h
  · simp only [compl32, Nat.testBit_and, Nat.testBit_xor, testBit_U32MAX]
    simp [h]
  · have hxi : x.testBit i = false :=
      Nat.testBit_lt_two_pow (lt_of_lt_of_le hx (Nat.pow_le_pow_right (by norm_num) h))
    simp [Nat.testBit_and, hxi]

theorem disj_testBit {m n : Nat} (h : m &&& n = 0) (i : Nat) :
    (m.testBit i && n.testBit i) = false := by
  rw [← Nat.testBit_and, h, Nat.zero_testBit]

theorem land_comm_zero {m n : Nat} (h : m &&& n = 0) : n &&& m = 0 := by
  apply Nat.eq_of_testBit_eq; intro i
  have hd := disj_testBit h i
  simp only [Nat.testBit_and, Nat.zero_testBit]
  cases hm : m.testBit i <;> cases hn : n.testBit i <;> simp_all

theorem land_absorb_disj {m A X : Nat} (hm : m &&& A = m) (hAX : A &&& X = 0) :
    m &&& X = 0 := by
  apply Nat.eq_of_testBit_eq; intro i
  have h1 : (m.testBit i && A.testBit i) = m.testBit i := by
    rw [← Nat.testBit_and, hm]
  have h2 := disj_testBit hAX i
  simp only [Nat.testBit_and, Nat.zero_testBit]
  cases hmi : m.testBit i <;> cases hAi : A.testBit i <;>
    cases hXi : X.testBit i <;> simp_all

theorem land_compl32_lor_self {x s M : Nat} (hx : x < 2 ^ 32) :
    ((x &&& compl32 M) ||| s) &&& M = s &&& M := by
  apply Nat.eq_of_testBit_eq; intro i
  simp only [Nat.testBit_and, Nat.testBit_or, testBit_land_compl32 M hx]
  cases x.testBit i <;> cases s.testBit i <;> cases M.testBit i <;> rfl

theorem land_compl32_lor_other {x s M N : Nat} (hx : x < 2 ^ 32) (hMN : M &&& N = 0) :
    ((x &&& compl32 M) ||| s) &&& N = (x &&& N) ||| (s &&& N) := by
  apply Nat.eq_of_testBit_eq; intro i
  have hd := disj_testBit hMN i
  simp only [Nat.testBit_and, Nat.testBit_or, testBit_land_compl32 M hx]
  cases hM : M.testBit i <;> cases hN : N.testBit i <;>
    cases x.testBit i <;> cases s.testBit i <;> simp_all

/-! Branch characterizations of `merge_settings`. -/

theorem merge_settings_of_dec {R D C cur s : Nat} (h : s &&& C ≠ 0) :
    merge_settings R D C cur s = (cur &&& compl32 C) ||| s := by
  simp [merge_settings, h]

theorem merge_settings_of_dt {R D C cur s : Nat} (hC : s &&& C = 0) (hD : s &&& D ≠ 0) :
    merge_settings R D C cur s = (cur &&& compl32 D) ||| s := by
  simp [merge_settings, hC, hD]

theorem merge_settings_of_row {R D C cur s : Nat} (hC : s &&& C = 0) (hD : s &&& D = 0)
    (hR : s &&& R ≠ 0) :
    merge_settings R D C cur s = (cur &&& compl32 R) ||| s := by
  simp [merge_settings, hC, hD, hR]

theorem merge_settings_of_none {R D C cur s : Nat} (hR : s &&& R = 0) (hD : s &&& D = 0)
    (hC : s &&& C = 0) :
    merge_settings R D C cur s = 0 := by
  simp [merge_settings, hR, hD, hC]

/-! Characterizations of `Export_set_encoding`. -/

theorem Export_set_encoding_of_valid {valid : Nat → Bool} {R D C cur s : Nat}
    (h : valid (merge_settings R D C cur s) = true) :
    Export_set_encoding valid R D C cur s = (merge_settings R D C cur s, .ok) := by
  simp [Export_set_encoding, encoder_set_encoding, h]

theorem Export_set_encoding_of_invalid {valid : Nat → Bool} {R D C cur s : Nat}
    (h : valid (merge_settings R D C cur s) = false) :
    Export_set_encoding valid R D C cur s = (cur, .err s) := by
  simp [Export_set_encoding, encoder_set_encoding, h]

theorem Export_set_encoding_ok_elim {valid : Nat → Bool} {R D C cur s r : Nat}
    (h : Export_set_encoding valid R D C cur s = (r, .ok)) :
    valid (merge_settings R D C cur s) = true ∧ r = merge_settings R D C cur s := by
  by_cases hv : valid (merge_settings R D C cur s) = true
  · refine ⟨hv, ?_⟩
    rw [Export_set_encoding_of_valid hv] at h
    exact (Prod.mk.injEq _ _ _ _ ▸ h).1.symm
  · rw [Export_set_encoding_of_invalid (by simpa using hv)] at h
    simp at h

/-! Bound helpers. -/

theorem compl32_lt {m : Nat} (hm : m < 2 ^ 32) : compl32 m < 2 ^ 32 := by
  unfold compl32
  exact Nat.xor_lt_two_pow (by norm_num [U32MAX]) hm

theorem merge_settings_lt {R D C cur s : Nat} (hR : R < 2 ^ 32) (hD : D < 2 ^ 32)
    (hC : C < 2 ^ 32) (hs : s < 2 ^ 32) :
    merge_settings R D C cur s < 2 ^ 32 := by
  simp only [merge_settings]
  split_ifs <;>
    first
      | exact Nat.or_lt_two_pow (Nat.and_lt_two_pow _ (compl32_lt hC)) hs
      | exact Nat.or_lt_two_pow (Nat.and_lt_two_pow _ (compl32_lt hD)) hs
      | exact Nat.or_lt_two_pow (Nat.and_lt_two_pow _ (compl32_lt hR)) hs
      | norm_num

/-- Any two distinct members of the three pairwise disjoint category masks
are disjoint. -/
theorem cat_disj {R D C X Y : Nat} (hRD : R &&& D = 0) (hRC : R &&& C = 0)
    (hDC : D &&& C = 0) (hX : X = R ∨ X = D ∨ X = C) (hY : Y = R ∨ Y = D ∨ Y = C)
    (hXY : X ≠ Y) : X &&& Y = 0 := by
  rcases hX with rfl | rfl | rfl <;> rcases hY with rfl | rfl | rfl <;>
    first
      | exact (hXY rfl).elim
      | exact hRD
      | exact hRC
      | exact hDC
      | exact land_comm_zero hRD
      | exact land_comm_zero hRC
      | exact land_comm_zero hDC

/-- A requested mask concentrated in a single category makes exactly that
category's branch of `Export_set_encoding` fire. -/
theorem merge_settings_single {R D C cur m A : Nat} (hRD : R &&& D = 0)
    (hRC : R &&& C = 0) (hDC : D &&& C = 0) (hA : A = R ∨ A = D ∨ A = C)
    (hm : m &&& A = m) (hmn : m ≠ 0) :
    merge_settings R D C cur m = (cur &&& compl32 A) ||| m := by
  have hmA : m &&& A ≠ 0 := by rw [hm]; exact hmn
  rcases hA with rfl | rfl | rfl
  · exact merge_settings_of_row (land_absorb_disj hm hRC) (land_absorb_disj hm hRD) hmA
  · exact merge_settings_of_dt (land_absorb_disj hm hDC) hmA
  · exact merge_settings_of_dec hmA

/-- Clearing category `A` then `B` commutes with clearing `B` then `A`
when the OR-ed masks avoid the other category. -/
theorem merge_swap {x m1 m2 A B : Nat} (hx : x < 2 ^ 32)
    (hm1 : m1 < 2 ^ 32) (hm2 : m2 < 2 ^ 32) (hA : A < 2 ^ 32) (hB : B < 2 ^ 32)
    (h1B : m1 &&& B = 0) (h2A : m2 &&& A = 0) :
    (((x &&& compl32 A) ||| m1) &&& compl32 B) ||| m2
      = (((x &&& compl32 B) ||| m2) &&& compl32 A) ||| m1 := by
  have hy1 : (x &&& compl32 A) ||| m1 < 2 ^ 32 :=
    Nat.or_lt_two_pow (Nat.and_lt_two_pow _ (compl32_lt hA)) hm1
  have hy2 : (x &&& compl32 B) ||| m2 < 2 ^ 32 :=
    Nat.or_lt_two_pow (Nat.and_lt_two_pow _ (compl32_lt hB)) hm2
  apply Nat.eq_of_testBit_eq; intro i
  have d1 := disj_testBit h1B i
  have d2 := disj_testBit h2A i
  rw [Nat.testBit_or, Nat.testBit_or, testBit_land_compl32 B hy1 i,
    testBit_land_compl32 A hy2 i, Nat.testBit_or, Nat.testBit_or,
    testBit_land_compl32 A hx i, testBit_land_compl32 B hx i]
  cases hAi : A.testBit i <;> cases hBi : B.testBit i <;>
    cases hxi : x.testBit i <;> cases hm1i : m1.testBit i <;>
      cases hm2i : m2.testBit i <;> simp_all

/-- C1: counterexample.  With pairwise disjoint category masks 0x07 (row),
0x30 (datetime) and 0x700 (decimal), stored settings 0x01 and requested
mask 0x12 — bits in both the row and the datetime categories — the
committed settings are 0x13: their row category holds 0x03, i.e. the
requested row bits OR'd onto the prior ones, not the requested row bits
0x02.  A category is therefore not replaced whenever a later category
also has requested bits, contradicting the claim that every requested
category is replaced. -/
theorem C1_counterexample_row_category_not_replaced :
    (7 &&& 48 = 0 ∧ 7 &&& 1792 = 0 ∧ 48 &&& 1792 = 0)
    ∧ 18 &&& 7 ≠ 0 ∧ 18 &&& 48 ≠ 0 ∧ 18 &&& 1792 = 0
    ∧ Export_set_encoding (fun _ => true) 7 48 1792 1 18 = (19, .ok)
    ∧ 19 &&& 7 = 3
    ∧ ¬(19 &&& 7 = 18 &&& 7) := by
  decide

/-- C1 (amended): when `Export_set_encoding` commits, the *last* category
with requested bits (decimal, else datetime, else row) is replaced by the
requested bits; every earlier category with requested bits receives the
requested bits OR'd onto its prior bits rather than replacing them; and
categories with no requested bits keep their prior value. -/
theorem C1_amended_category_merge {v : Nat → Bool} {R D C cur s m : Nat}
    (hRD : R &&& D = 0) (hRC : R &&& C = 0) (hDC : D &&& C = 0)
    (hcur : cur < 2 ^ 32)
    (hm : Export_set_encoding v R D C cur s = (m, .ok)) :
    (s &&& C ≠ 0 →
        m &&& C = s &&& C
      ∧ m &&& D = (cur &&& D) ||| (s &&& D)
      ∧ m &&& R = (cur &&& R) ||| (s &&& R))
    ∧ (s &&& C = 0 → s &&& D ≠ 0 →
        m &&& D = s &&& D
      ∧ m &&& C = cur &&& C
      ∧ m &&& R = (cur &&& R) ||| (s &&& R))
    ∧ (s &&& C = 0 → s &&& D = 0 → s &&& R ≠ 0 →
        m &&& R = s &&& R
      ∧ m &&& C = cur &&& C
      ∧ m &&& D = cur &&& D) := by
  obtain ⟨-, rfl⟩ := Export_set_encoding_ok_elim hm
  refine ⟨fun hsC => ?_, fun hsC hsD => ?_, fun hsC hsD hsR => ?_⟩
  · rw [merge_settings_of_dec hsC]
    exact ⟨land_compl32_lor_self hcur,
      land_compl32_lor_other hcur (land_comm_zero hDC),
      land_compl32_lor_other hcur (land_comm_zero hRC)⟩
  · rw [merge_settings_of_dt hsC hsD]
    refine ⟨land_compl32_lor_self hcur, ?_, ?_⟩
    · rw [land_compl32_lor_other hcur hDC, hsC, Nat.or_zero]
    · exact land_compl32_lor_other hcur (land_comm_zero hRD)
  · rw [merge_settings_of_row hsC hsD hsR]
    refine ⟨land_compl32_lor_self hcur, ?_, ?_⟩
    · rw [land_compl32_lor_other hcur hRC, hsC, Nat.or_zero]
    · rw [land_compl32_lor_other hcur hRD, hsD, Nat.or_zero]

/-- C1 (amended), witness: requested mask 0x200 (decimal category only)
against stored settings 0x03 commits 0x203: decimal replaced, datetime
and row OR-merged (here unchanged). -/
theorem C1_amended_category_merge_witness :
    (515 : Nat) &&& 1792 = 512 &&& 1792
    ∧ (515 : Nat) &&& 48 = (3 &&& 48) ||| (512 &&& 48)
    ∧ (515 : Nat) &&& 7 = (3 &&& 7) ||| (512 &&& 7) :=
  (C1_amended_category_merge (by decide) (by decide) (by decide) (by decide)
    (show Export_set_encoding (fun _ => true) 7 48 1792 3 512 = (515, SetEncOutcome.ok)
      by decide)).1 (by decide)

/-- C2: two requested masks concentrated in two different categories,
each committing, overwrite exactly their own categories starting from the
default settings, leave the third category untouched, and the final
stored settings do not depend on the order of the two calls. -/
theorem C2_disjoint_single_category_merges_commute {v : Nat → Bool}
    {R D C A B m1 m2 d r1 r12 s1 s21 : Nat}
    (hRD : R &&& D = 0) (hRC : R &&& C = 0) (hDC : D &&& C = 0)
    (hRlt : R < 2 ^ 32) (hDlt : D < 2 ^ 32) (hClt : C < 2 ^ 32) (hd : d < 2 ^ 32)
    (hA : A = R ∨ A = D ∨ A = C) (hB : B = R ∨ B = D ∨ B = C) (hAB : A ≠ B)
    (h1 : m1 &&& A = m1) (h1n : m1 ≠ 0)
    (h2 : m2 &&& B = m2) (h2n : m2 ≠ 0)
    (e1 : Export_set_encoding v R D C d m1 = (r1, .ok))
    (e2 : Export_set_encoding v R D C r1 m2 = (r12, .ok))
    (f1 : Export_set_encoding v R D C d m2 = (s1, .ok))
    (f2 : Export_set_encoding v R D C s1 m1 = (s21, .ok)) :
    r12 &&& A = m1
    ∧ r12 &&& B = m2
    ∧ (∀ T, (T = R ∨ T = D ∨ T = C) → T ≠ A → T ≠ B → r12 &&& T = d &&& T)
    ∧ s21 = r12 := by
  have hAlt : A < 2 ^ 32 := by rcases hA with rfl | rfl | rfl <;> assumption
  have hBlt : B < 2 ^ 32 := by rcases hB with rfl | rfl | rfl <;> assumption
  have hm1lt : m1 < 2 ^ 32 := h1 ▸ Nat.and_lt_two_pow m1 hAlt
  have hm2lt : m2 < 2 ^ 32 := h2 ▸ Nat.and_lt_two_pow m2 hBlt
  have hAB0 : A &&& B = 0 := cat_disj hRD hRC hDC hA hB hAB
  have hm1B : m1 &&& B = 0 := land_absorb_disj h1 hAB0
  have hm2A : m2 &&& A = 0 := land_absorb_disj h2 (land_comm_zero hAB0)
  obtain ⟨-, hr1⟩ := Export_set_encoding_ok_elim e1
  rw [merge_settings_single hRD hRC hDC hA h1 h1n] at hr1
  obtain ⟨-, hr12⟩ := Export_set_encoding_ok_elim e2
  rw [merge_settings_single hRD hRC hDC hB h2 h2n] at hr12
  obtain ⟨-, hs1⟩ := Export_set_encoding_ok_elim f1
  rw [merge_settings_single hRD hRC hDC hB h2 h2n] at hs1
  obtain ⟨-, hs21⟩ := Export_set_encoding_ok_elim f2
  rw [merge_settings_single hRD hRC hDC hA h1 h1n] at hs21
  have hr1lt : r1 < 2 ^ 32 := by
    rw [hr1]
    exact Nat.or_lt_two_pow (Nat.and_lt_two_pow _ (compl32_lt hAlt)) hm1lt
  refine ⟨?_, ?_, ?_, ?_⟩
  · rw [hr12, land_compl32_lor_other hr1lt (land_comm_zero hAB0), hm2A, Nat.or_zero,
      hr1, land_compl32_lor_self hd, h1]
  · rw [hr12, land_compl32_lor_self hr1lt, h2]
  · intro T hT hTA hTB
    have hBT : B &&& T = 0 := cat_disj hRD hRC hDC hB hT (Ne.symm hTB)
    have hAT : A &&& T = 0 := cat_disj hRD hRC hDC hA hT (Ne.symm hTA)
    rw [hr12, land_compl32_lor_other hr1lt hBT, land_absorb_disj h2 hBT, Nat.or_zero,
      hr1, land_compl32_lor_other hd hAT, land_absorb_disj h1 hAT, Nat.or_zero]
  · rw [hs21, hs1, hr12, hr1]
    exact (merge_swap hd hm1lt hm2lt hAlt hBlt hm1B hm2A).symm

/-- C2, witness: row mask 0x02 and decimal mask 0x400 applied in both
orders from default 0x131 commit to the same stored settings with row
replaced, decimal replaced and the datetime category untouched. -/
theorem C2_disjoint_single_category_merges_commute_witness :
    (1074 : Nat) &&& 7 = 2
    ∧ (1074 : Nat) &&& 1792 = 1024
    ∧ (1074 : Nat) &&& 48 = 305 &&& 48 :=
  have h := C2_disjoint_single_category_merges_commute
    (v := fun _ => true) (by decide) (by decide) (by decide) (by decide) (by decide)
    (by decide) (by decide) (Or.inl rfl) (Or.inr (Or.inr rfl)) (by decide)
    (by decide) (by decide) (by decide) (by decide)
    (show Export_set_encoding (fun _ => true) 7 48 1792 305 2 = (306, SetEncOutcome.ok)
      by decide)
    (show Export_set_encoding (fun _ => true) 7 48 1792 306 1024 = (1074, SetEncOutcome.ok)
      by decide)
    (show Export_set_encoding (fun _ => true) 7 48 1792 305 1024 = (1073, SetEncOutcome.ok)
      by decide)
    (show Export_set_encoding (fun _ => true) 7 48 1792 1073 2 = (1074, SetEncOutcome.ok)
      by decide)
  ⟨h.1, h.2.1, h.2.2.1 48 (Or.inr (Or.inl rfl)) (by decide) (by decide)⟩

/-- C3: a requested mask with no bit in any of the three category masks
leaves the stored settings unchanged: all three branches skip, the value
0 is submitted to the encoder, and — the all-zero combination naming no
row encoding being unsupported — the encoder rejects it, so the call
errors out without committing anything. -/
theorem C3_no_category_bits_settings_unchanged {v : Nat → Bool} {R D C cur s : Nat}
    (hR : s &&& R = 0) (hD : s &&& D = 0) (hC : s &&& C = 0) (hv : v 0 = false) :
    Export_set_encoding v R D C cur s = (cur, .err s) :=
  Export_set_encoding_of_invalid (by rw [merge_settings_of_none hR hD hC]; exact hv)

/-- C3, witness: requested mask 0x1000 lies outside all three categories;
stored settings 1 are unchanged. -/
theorem C3_no_category_bits_settings_unchanged_witness :
    Export_set_encoding (fun n => decide (0 < n)) 7 48 1792 1 4096
      = (1, SetEncOutcome.err 4096) :=
  C3_no_category_bits_settings_unchanged (by decide) (by decide) (by decide) (by decide)

/-- C4: when the merged result fails the encoder's validity check,
`Export_set_encoding` raises carrying the requested mask and the stored
settings are left unchanged — no partial merge is committed. -/
theorem C4_invalid_merge_errors_and_rolls_back {v : Nat → Bool} {R D C cur s : Nat}
    (hv : v (merge_settings R D C cur s) = false) :
    Export_set_encoding v R D C cur s = (cur, .err s) :=
  Export_set_encoding_of_invalid hv

/-- C4, witness: with an encoder rejecting everything, requesting mask 1
against stored settings 5 reports the rejected request and keeps 5. -/
theorem C4_invalid_merge_errors_and_rolls_back_witness :
    Export_set_encoding (fun _ => false) 7 48 1792 5 1 = (5, SetEncOutcome.err 1) :=
  C4_invalid_merge_errors_and_rolls_back (by decide)

/-- C9: whenever the requested mask has a bit inside some category, the
whole requested mask — out-of-category bits included — is OR'd into the
value submitted to the encoder. -/
theorem C9_requested_bits_propagate {R D C cur s : Nat}
    (h : s &&& (R ||| D ||| C) ≠ 0) :
    merge_settings R D C cur s ||| s = merge_settings R D C cur s := by
  have hsplit : s &&& R ≠ 0 ∨ s &&& D ≠ 0 ∨ s &&& C ≠ 0 := by
    by_contra hcon
    push_neg at hcon
    obtain ⟨h1, h2, h3⟩ := hcon
    apply h
    apply Nat.eq_of_testBit_eq; intro i
    have t1 := disj_testBit h1 i
    have t2 := disj_testBit h2 i
    have t3 := disj_testBit h3 i
    simp only [Nat.testBit_and, Nat.testBit_or, Nat.zero_testBit]
    cases hs : s.testBit i <;> simp_all
  by_cases hc : s &&& C = 0
  · by_cases hdt : s &&& D = 0
    · have hr : s &&& R ≠ 0 := by rcases hsplit with h1 | h1 | h1 <;> simp_all
      rw [merge_settings_of_row hc hdt hr, Nat.or_assoc, Nat.or_self]
    · rw [merge_settings_of_dt hc hdt, Nat.or_assoc, Nat.or_self]
  · rw [merge_settings_of_dec hc, Nat.or_assoc, Nat.or_self]

/-- C9, witness: requested mask 0x1002 has a row bit and the
out-of-category bit 0x1000; both end up in the submitted value. -/
theorem C9_requested_bits_propagate_witness :
    merge_settings 7 48 1792 1 4098 ||| 4098 = merge_settings 7 48 1792 1 4098 :=
  C9_requested_bits_propagate (by decide)

/-! Session lifecycle model.  `Export_init`, `Export_close`,
`Export_columns`, `Export_set_null`, `Export_set_delimiter`,
`Export_set_query`, `Export_add_attribute` and `Export_initiate` are
embedded from exportobject.cc; the `Giraffez::Connection` methods and the
encoder override functions they delegate to are not under src/ and are
modelled from the spec. -/

/-- A tagged attribute value as passed to `Connection::AddAttribute`:
an integer, a string, or the vendor operator constant `TD_EXPORT`. -/
inductive AttrVal where
  | int (n : Int)
  | str (s : String)
  | tdExport
deriving DecidableEq, Repr

/-- Modelled from the spec: the vendor attribute-key constants
(`TD_SYSTEM_OPERATOR`, ...) come from the transport library's headers,
which are not under src/; they are modelled as a closed enumeration of
distinct tokens, plus `custom` for any other numeric key. -/
inductive TDAttr where
  | TD_SYSTEM_OPERATOR
  | TD_TDP_ID
  | TD_USER_NAME
  | TD_USER_PASSWORD
  | TD_MIN_SESSIONS
  | TD_MAX_SESSIONS
  | TD_MAX_DECIMAL_DIGITS
  | TD_CHARSET
  | TD_BUFFER_MODE
  | TD_BLOCK_SIZE
  | TD_BUFFER_HEADER_SIZE
  | TD_BUFFER_LENGTH_SIZE
  | TD_BUFFER_MAX_SIZE
  | TD_BUFFER_TRAILER_SIZE
  | TD_SPOOLMODE
  | TD_TENACITY_HOURS
  | TD_TENACITY_SLEEP
  | custom (k : Int)
deriving DecidableEq, Repr

/-- A value handed across the scripting boundary to `set_null` /
`set_delimiter`. -/
inductive PyVal where
  | str (s : String)
  | int (n : Int)
  | pyNone
  | otherKind
deriving DecidableEq, Repr

/-- The session lifecycle states of §4.2. -/
inductive LState where
  | Created
  | Configured
  | Active
  | Terminated
deriving DecidableEq, Repr

/-- A column descriptor as reported by the transport at stream-open time. -/
structure Column where
  name : String
  tdType : Nat
  nullable : Bool
  byteSize : Nat
deriving DecidableEq, Repr

/-- The lifecycle errors of §7. -/
inductive GErr where
  | parseError
  | configurationError
  | encodingError
  | lifecycleError
  | connectionError
deriving DecidableEq, Repr

/-- The state behind an `Export` object: the `Giraffez::Connection` with
its attribute store, query, lifecycle state, encoder settings and
overrides, plus bookkeeping for the native handle (allocated at
construction, released by `Terminate`). -/
structure ConnState where
  attrs : List (TDAttr × AttrVal)
  query : Option String
  lstate : LState
  encSettings : Nat
  nullMarker : Option PyVal
  delimiter : Option PyVal
  schemaCols : List Column
  handleAllocated : Bool
  releaseCount : Nat
deriving DecidableEq, Repr

/-- Shallow embedding of `Export_init` (exportobject.cc lines 43-93):
construction stores the credentials and pre-populates the ordered
attribute store with the production defaults.  `TERADATA_CHARSET` and
`TD_ROW_MAX_SIZE` are preprocessor constants defined outside src/ and are
passed as parameters; `initialSettings` stands for the settings of the
freshly constructed encoder (also outside src/). -/
def Export_init (TERADATA_CHARSET : String) (TD_ROW_MAX_SIZE : Int)
    (initialSettings : Nat) (host username password : String) : ConnState :=
  { attrs :=
      [ (TDAttr.TD_SYSTEM_OPERATOR, AttrVal.tdExport)
      , (TDAttr.TD_TDP_ID, AttrVal.str host)
      , (TDAttr.TD_USER_NAME, AttrVal.str username)
      , (TDAttr.TD_USER_PASSWORD, AttrVal.str password)
      , (TDAttr.TD_MIN_SESSIONS, AttrVal.int 2)
      , (TDAttr.TD_MAX_SESSIONS, AttrVal.int 5)
      , (TDAttr.TD_MAX_DECIMAL_DIGITS, AttrVal.int 38)
      , (TDAttr.TD_CHARSET, AttrVal.str TERADATA_CHARSET)
      , (TDAttr.TD_BUFFER_MODE, AttrVal.str "YES")
      , (TDAttr.TD_BLOCK_SIZE, AttrVal.int 64330)
      , (TDAttr.TD_BUFFER_HEADER_SIZE, AttrVal.int 2)
      , (TDAttr.TD_BUFFER_LENGTH_SIZE, AttrVal.int 2)
      , (TDAttr.TD_BUFFER_MAX_SIZE, AttrVal.int TD_ROW_MAX_SIZE)
      , (TDAttr.TD_BUFFER_TRAILER_SIZE, AttrVal.int 0)
      , (TDAttr.TD_SPOOLMODE, AttrVal.str "NoSpool")
      , (TDAttr.TD_TENACITY_HOURS, AttrVal.int 1)
      , (TDAttr.TD_TENACITY_SLEEP, AttrVal.int 1) ]
    query := none
    lstate := LState.Created
    encSettings := initialSettings
    nullMarker := none
    delimiter := none
    schemaCols := []
    handleAllocated := true
    releaseCount := 0 }

/-- The value currently bound to key `k` in the ordered attribute store;
the most recent binding wins, matching override semantics. -/
def lookupAttr (attrs : List (TDAttr × AttrVal)) (k : TDAttr) : Option AttrVal :=
  (attrs.reverse.find? (fun p => decide (p.1 = k))).map Prod.snd

/-- Modelled from the spec: `Connection::Terminate` is not under src/.
Per §4.2, `Close` is valid in any state, releases the native handle if
one was allocated, transitions to `Terminated`, and calling it again is a
no-op returning success; the release happens exactly once. -/
def ConnState.Terminate (c : ConnState) : ConnState × Except GErr Unit :=
  if c.lstate = LState.Terminated then (c, Except.ok ())
  else
    ({ c with
        lstate := LState.Terminated
        handleAllocated := false
        releaseCount := c.releaseCount + (if c.handleAllocated then 1 else 0) },
      Except.ok ())

/-- Shallow embedding of `Export_close` (exportobject.cc lines 104-106):
delegates to `Connection::Terminate`. -/
def Export_close (c : ConnState) : ConnState × Except GErr Unit := c.Terminate

/-- Modelled from the spec: `Connection::Columns` is not under src/.
Per §4.4 it is valid only when the state is `Active`, returning the
ordered column metadata captured at stream-open; calling before `Active`
fails with `LifecycleError`. -/
def ConnState.Columns (c : ConnState) : Except GErr (List Column) :=
  if c.lstate = LState.Active then Except.ok c.schemaCols
  else Except.error GErr.lifecycleError

/-- Shallow embedding of `Export_columns` (exportobject.cc lines
108-110): delegates to `Connection::Columns`. -/
def Export_columns (c : ConnState) : Except GErr (List Column) := c.Columns

/-- Modelled from the spec: `Connection::Initiate` is not under src/.
Per §4.2 it is valid in `Created`/`Configured`; on success it opens the
stream, records the query's projected column metadata as reported by the
transport (`projected`), and transitions to `Active`; on handshake
failure (after the tenacity-bounded retry, collapsed here into the
oracle `handshakeOk`) it fails with `ConnectionError` leaving the state
unchanged. -/
def ConnState.Initiate (projected : List Column) (handshakeOk : Bool)
    (c : ConnState) : ConnState × Except GErr Unit :=
  if c.lstate = LState.Created ∨ c.lstate = LState.Configured then
    if handshakeOk then
      ({ c with lstate := LState.Active, schemaCols := projected }, Except.ok ())
    else (c, Except.error GErr.connectionError)
  else (c, Except.error GErr.lifecycleError)

/-- Shallow embedding of `Export_initiate` (exportobject.cc lines
158-163): delegates to `Connection::Initiate`. -/
def Export_initiate (projected : List Column) (handshakeOk : Bool)
    (c : ConnState) : ConnState × Except GErr Unit :=
  c.Initiate projected handshakeOk

/-- Modelled from the spec: the value kinds the encoder accepts for the
null-marker / delimiter overrides (§4.6): the value must be representable
as the row's null marker or field delimiter, i.e. a text value, or an
explicit none to clear the override. -/
def overrideKindOk : PyVal → Bool
  | PyVal.str _ => true
  | PyVal.pyNone => true
  | _ => false

/-- Modelled from the spec: `encoder_set_null` is not under src/.
Per §4.6 the override is valid at any pre-Active state, fails with
`EncodingError` when the value's kind does not match what the encoder
expects, and setting it once the session is past configuration is
rejected. -/
def encoder_set_null (v : PyVal) (c : ConnState) : ConnState × Except GErr Unit :=
  if c.lstate = LState.Created ∨ c.lstate = LState.Configured then
    if overrideKindOk v then ({ c with nullMarker := some v }, Except.ok ())
    else (c, Except.error GErr.encodingError)
  else (c, Except.error GErr.lifecycleError)

/-- Modelled from the spec: `encoder_set_delimiter` is not under src/;
same contract as `encoder_set_null`, targeting the field delimiter. -/
def encoder_set_delimiter (v : PyVal) (c : ConnState) : ConnState × Except GErr Unit :=
  if c.lstate = LState.Created ∨ c.lstate = LState.Configured then
    if overrideKindOk v then ({ c with delimiter := some v }, Except.ok ())
    else (c, Except.error GErr.encodingError)
  else (c, Except.error GErr.lifecycleError)

/-- Modelled from the spec: `Connection::SetQuery` is not under src/.
Per §4.2 it is valid in `Created`/`Configured` and fails with
`LifecycleError` if `Active` or `Terminated`. -/
def ConnState.SetQuery (q : String) (c : ConnState) : ConnState × Except GErr Unit :=
  if c.lstate = LState.Created ∨ c.lstate = LState.Configured then
    ({ c with query := some q, lstate := LState.Configured }, Except.ok ())
  else (c, Except.error GErr.lifecycleError)

/-- Modelled from the spec: `Connection::AddAttribute` is not under src/.
Per §4.1 it appends the binding to the ordered attribute store. -/
def ConnState.AddAttribute (k : TDAttr) (v : AttrVal) (c : ConnState) :
    ConnState × Except GErr Unit :=
  ({ c with attrs := c.attrs ++ [(k, v)] }, Except.ok ())

/-- A boundary operation together with the outcome of parsing its
arguments against the operation's expected signature: `none` models a
failed `PyArg_ParseTuple`. -/
inductive BoundaryOp where
  | addAttribute (args : Option (TDAttr × AttrVal))
  | setQuery (args : Option String)
  | setEncoding (args : Option Nat)
  | setNull (args : Option PyVal)
  | setDelimiter (args : Option PyVal)
deriving DecidableEq, Repr

/-- Whether the operation's argument tuple failed to parse. -/
def parseFailed : BoundaryOp → Bool
  | BoundaryOp.addAttribute none => true
  | BoundaryOp.setQuery none => true
  | BoundaryOp.setEncoding none => true
  | BoundaryOp.setNull none => true
  | BoundaryOp.setDelimiter none => true
  | _ => false

/-- Shallow embedding of the argument-taking entry points of the Export
object (exportobject.cc lines 95-102, 116-136, 138-145, 147-154 and
165-171): each one first runs `PyArg_ParseTuple` and returns NULL, before
touching any state, when parsing fails; otherwise it delegates. -/
def exportCall (v : Nat → Bool) (rowMask dtMask decMask : Nat)
    (c : ConnState) : BoundaryOp → ConnState × Except GErr Unit
  | BoundaryOp.addAttribute none => (c, Except.error GErr.parseError)
  | BoundaryOp.addAttribute (some (k, a)) => c.AddAttribute k a
  | BoundaryOp.setQuery none => (c, Except.error GErr.parseError)
  | BoundaryOp.setQuery (some q) => c.SetQuery q
  | BoundaryOp.setEncoding none => (c, Except.error GErr.parseError)
  | BoundaryOp.setEncoding (some s) =>
      match Export_set_encoding v rowMask dtMask decMask c.encSettings s with
      | (n, SetEncOutcome.ok) => ({ c with encSettings := n }, Except.ok ())
      | (_, SetEncOutcome.err _) => (c, Except.error GErr.encodingError)
  | BoundaryOp.setNull none => (c, Except.error GErr.parseError)
  | BoundaryOp.setNull (some val) => encoder_set_null val c
  | BoundaryOp.setDelimiter none => (c, Except.error GErr.parseError)
  | BoundaryOp.setDelimiter (some val) => encoder_set_delimiter val c

/-- C5: constructing an Export session pre-populates the attribute store
with the production defaults: minimum sessions 2, maximum sessions 5,
maximum decimal digits 38, the UTF-8-preferring charset constant,
buffering enabled ("YES") with block size 64330, 2-byte buffer header,
2-byte length field, 0-byte trailer and the maximum-row-size buffer cap,
spool mode "NoSpool", tenacity-hours 1 and tenacity-sleep 1 — seventeen
bindings in all, starting in the `Created` state. -/
theorem C5_init_populates_default_attributes (cs : String) (rowMax : Int)
    (enc0 : Nat) (host username password : String) (st : ConnState)
    (hst : st = Export_init cs rowMax enc0 host username password) :
    lookupAttr st.attrs TDAttr.TD_MIN_SESSIONS = some (AttrVal.int 2)
    ∧ lookupAttr st.attrs TDAttr.TD_MAX_SESSIONS = some (AttrVal.int 5)
    ∧ lookupAttr st.attrs TDAttr.TD_MAX_DECIMAL_DIGITS = some (AttrVal.int 38)
    ∧ lookupAttr st.attrs TDAttr.TD_CHARSET = some (AttrVal.str cs)
    ∧ lookupAttr st.attrs TDAttr.TD_BUFFER_MODE = some (AttrVal.str "YES")
    ∧ lookupAttr st.attrs TDAttr.TD_BLOCK_SIZE = some (AttrVal.int 64330)
    ∧ lookupAttr st.attrs TDAttr.TD_BUFFER_HEADER_SIZE = some (AttrVal.int 2)
    ∧ lookupAttr st.attrs TDAttr.TD_BUFFER_LENGTH_SIZE = some (AttrVal.int 2)
    ∧ lookupAttr st.attrs TDAttr.TD_BUFFER_TRAILER_SIZE = some (AttrVal.int 0)
    ∧ lookupAttr st.attrs TDAttr.TD_BUFFER_MAX_SIZE = some (AttrVal.int rowMax)
    ∧ lookupAttr st.attrs TDAttr.TD_SPOOLMODE = some (AttrVal.str "NoSpool")
    ∧ lookupAttr st.attrs TDAttr.TD_TENACITY_HOURS = some (AttrVal.int 1)
    ∧ lookupAttr st.attrs TDAttr.TD_TENACITY_SLEEP = some (AttrVal.int 1)
    ∧ st.attrs.length = 17
    ∧ st.lstate = LState.Created := by
  subst hst
  repeat' apply And.intro
  all_goals rfl

/-- C5, witness: a concrete construction binds minimum sessions to 2. -/
theorem C5_init_populates_default_attributes_witness :
    lookupAttr (Export_init "UTF8" 64260 1 "h" "u" "p").attrs TDAttr.TD_MIN_SESSIONS
      = some (AttrVal.int 2) :=
  (C5_init_populates_default_attributes "UTF8" 64260 1 "h" "u" "p" _ rfl).1

/-- C6: `Close` succeeds from every state, leaves the session
`Terminated`, is a no-op on a second call, and — whenever the native
handle is still held, in particular when `Initiate` never succeeded —
releases it exactly once. -/
theorem C6_close_idempotent_releases_once (c : ConnState) :
    (Export_close c).2 = Except.ok ()
    ∧ (Export_close c).1.lstate = LState.Terminated
    ∧ Export_close (Export_close c).1 = ((Export_close c).1, Except.ok ())
    ∧ (c.handleAllocated = true → c.lstate ≠ LState.Terminated →
        (Export_close c).1.releaseCount = c.releaseCount + 1
        ∧ (Export_close c).1.handleAllocated = false) := by
  by_cases h : c.lstate = LState.Terminated <;>
    simp_all [Export_close, ConnState.Terminate]

/-- C6, witness: closing a freshly constructed session releases the
handle once. -/
theorem C6_close_idempotent_releases_once_witness :
    (Export_close (Export_init "UTF8" 64260 1 "h" "u" "p")).1.releaseCount
        = (Export_init "UTF8" 64260 1 "h" "u" "p").releaseCount + 1
    ∧ (Export_close (Export_init "UTF8" 64260 1 "h" "u" "p")).1.handleAllocated
        = false :=
  (C6_close_idempotent_releases_once
    (Export_init "UTF8" 64260 1 "h" "u" "p")).2.2.2 rfl (by decide)

/-- C7: `Columns` in any non-Active state fails with `LifecycleError`;
once `Initiate` has succeeded it returns exactly the ordered column
descriptors that the transport reported for the query's projection. -/
theorem C7_columns_requires_active_then_ordered (c : ConnState)
    (projected : List Column) :
    (c.lstate ≠ LState.Active →
        Export_columns c = Except.error GErr.lifecycleError)
    ∧ (∀ b c2, Export_initiate projected b c = (c2, Except.ok ()) →
        Export_columns c2 = Except.ok projected) := by
  constructor
  · intro h
    simp [Export_columns, ConnState.Columns, h]
  · intro b c2 h
    unfold Export_initiate ConnState.Initiate at h
    split_ifs at h with h1 h2
    · obtain ⟨rfl, -⟩ := Prod.mk.injEq .. ▸ h
      simp [Export_columns, ConnState.Columns]
    · simp at h
    · simp at h

/-- C7, witness: on a concrete fresh session, `Columns` fails before
`Initiate` and returns the projected descriptors after it. -/
theorem C7_columns_requires_active_then_ordered_witness :
    Export_columns (Export_init "UTF8" 64260 1 "h" "u" "p")
        = Except.error GErr.lifecycleError
    ∧ Export_columns
        ((Export_initiate [⟨"id", 497, true, 4⟩] true
          (Export_init "UTF8" 64260 1 "h" "u" "p")).1)
        = Except.ok [⟨"id", 497, true, 4⟩] :=
  ⟨(C7_columns_requires_active_then_ordered
      (Export_init "UTF8" 64260 1 "h" "u" "p") [⟨"id", 497, true, 4⟩]).1 (by decide),
    (C7_columns_requires_active_then_ordered
      (Export_init "UTF8" 64260 1 "h" "u" "p") [⟨"id", 497, true, 4⟩]).2 true _ rfl⟩

/-- C8: the null-marker and delimiter overrides are accepted in any
pre-Active state, fail with `EncodingError` (state untouched) when the
value's kind does not match what the encoder expects, and are rejected
without effect once the session is Active. -/
theorem C8_overrides_pre_active_only (v0 : PyVal) (c : ConnState) :
    ((c.lstate = LState.Created ∨ c.lstate = LState.Configured) →
        (overrideKindOk v0 = false →
            encoder_set_null v0 c = (c, Except.error GErr.encodingError)
          ∧ encoder_set_delimiter v0 c = (c, Except.error GErr.encodingError))
      ∧ (overrideKindOk v0 = true →
            (encoder_set_null v0 c).2 = Except.ok ()
          ∧ (encoder_set_delimiter v0 c).2 = Except.ok ()))
    ∧ (c.lstate = LState.Active →
          encoder_set_null v0 c = (c, Except.error GErr.lifecycleError)
        ∧ encoder_set_delimiter v0 c = (c, Except.error GErr.lifecycleError)) := by
  constructor
  · intro hpre
    constructor
    · intro hbad
      simp [encoder_set_null, encoder_set_delimiter, hpre, hbad]
    · intro hgood
      simp [encoder_set_null, encoder_set_delimiter, hpre, hgood]
  · intro hact
    simp [encoder_set_null, encoder_set_delimiter, hact]

/-- C8, witness: an integer is not a valid null-marker kind; on a fresh
session the override fails with `EncodingError` and changes nothing. -/
theorem C8_overrides_pre_active_only_witness :
    encoder_set_null (PyVal.int 3) (Export_init "UTF8" 64260 1 "h" "u" "p")
      = (Export_init "UTF8" 64260 1 "h" "u" "p", Except.error GErr.encodingError) :=
  (((C8_overrides_pre_active_only (PyVal.int 3)
    (Export_init "UTF8" 64260 1 "h" "u" "p")).1 (Or.inl rfl)).1 rfl).1

/-- C10: every argument-taking boundary operation whose argument tuple
fails to parse returns an error immediately and leaves the whole
connection state — attribute store, query, encoder settings and
overrides — unmodified. -/
theorem C10_parse_failure_is_inert (v : Nat → Bool) (R D C : Nat)
    (c : ConnState) (op : BoundaryOp) (h : parseFailed op = true) :
    exportCall v R D C c op = (c, Except.error GErr.parseError) := by
  cases op with
  | addAttribute a =>
      cases a with
      | none => rfl
      | some x => simp [parseFailed] at h
  | setQuery a =>
      cases a with
      | none => rfl
      | some x => simp [parseFailed] at h
  | setEncoding a =>
      cases a with
      | none => rfl
      | some x => simp [parseFailed] at h
  | setNull a =>
      cases a with
      | none => rfl
      | some x => simp [parseFailed] at h
  | setDelimiter a =>
      cases a with
      | none => rfl
      | some x => simp [parseFailed] at h

/-- C10, witness: a failed parse of `set_query` arguments on a fresh
session reports the parse error and leaves the state untouched. -/
theorem C10_parse_failure_is_inert_witness :
    exportCall (fun _ => true) 7 48 1792 (Export_init "UTF8" 64260 1 "h" "u" "p")
        (BoundaryOp.setQuery none)
      = (Export_init "UTF8" 64260 1 "h" "u" "p", Except.error GErr.parseError) :=
  C10_parse_failure_is_inert (fun _ => true) 7 48 1792
    (Export_init "UTF8" 64260 1 "h" "u" "p") (BoundaryOp.setQuery none) rfl

end Giraffez
